import Mathlib

/-!
Verification development for the hadesmem PE-import dump engine
(`examples/dump/imports.cpp`): a shallow embedding of `DumpImports`,
`DumpImportThunk` and their helpers, with theorems about warning emission,
thunk classification, and the resource ceilings.

The lazy sequences `ImportThunkList` / `ImportDirList` live in the hadesmem
pelib library, outside the sampled sources; they are modelled from the spec:
`read_thunks(base_rva)` terminates at a zero sentinel or at an unmappable
address (yielding zero elements), and the descriptor sequence is taken as a
given list of materialized descriptors.
-/

namespace HadesmemDump

/-- Warning severity, mirroring `WarningType::kSuspicious` /
`WarningType::kUnsupported` used by `WarnForCurrentFile`. -/
inductive Severity
  | suspicious
  | unsupported
  deriving DecidableEq, Repr

/-- The distinct warnings `DumpImports` / `DumpImportThunk` can emit, one
constructor per `WarnForCurrentFile` call site in `imports.cpp`. -/
inductive Warn
  | emptyImportDir
  | tlsAoiTrick
  | iatEmptyOrInvalid
  | descriptorCeiling
  | newStyleBoundInvalidIlt
  | oldStyleForwarderChain
  | nameReadFailed
  | iltEmptyOrInvalid
  | thunkCeiling
  | iatIltSizeMismatch
  | invalidThunkNameData
  deriving DecidableEq, Repr

/-- Severity used at each warning's `WarnForCurrentFile` call site. -/
def Warn.severity : Warn → Severity
  | .emptyImportDir => .suspicious
  | .tlsAoiTrick => .suspicious
  | .iatEmptyOrInvalid => .suspicious
  | .descriptorCeiling => .unsupported
  | .newStyleBoundInvalidIlt => .unsupported
  | .oldStyleForwarderChain => .unsupported
  | .nameReadFailed => .suspicious
  | .iltEmptyOrInvalid => .suspicious
  | .thunkCeiling => .unsupported
  | .iatIltSizeMismatch => .suspicious
  | .invalidThunkNameData => .unsupported

/-- The value `static_cast<DWORD>(-1)`, i.e. `0xFFFFFFFF`. -/
def dwordMax : Nat := 4294967295

/-- One `IMAGE_IMPORT_DESCRIPTOR` as consumed by the dump loop.
`nameOk` records whether `dir.GetName()` succeeds (the read may throw);
`tlsAoiTerminated` records `dir.IsTlsAoiTerminated()`. -/
structure ImportDescriptor where
  originalFirstThunk : Nat
  timeDateStamp : Nat
  forwarderChain : Nat
  firstThunk : Nat
  tlsAoiTerminated : Bool
  nameOk : Bool
  deriving DecidableEq, Repr

/-- The externally supplied image-access environment (spec §4.1/§6):
RVA resolution (`RvaToVa` success), raw thunk memory (the readable run of
thunk slots starting at an RVA), image kind, the bound-import presence
predicate (`HasValidNonEmptyBoundImportDescList`), whether by-name thunk data
at a given `AddressOfData` is readable, and the PE word size (selects the
ordinal bit). -/
structure PeEnv where
  rvaValid : Nat → Bool
  mem : Nat → List Nat
  isImage : Bool
  hasValidNonEmptyBoundImportDescList : Bool
  thunkNameOk : Nat → Bool
  isPe64 : Bool

/-- Modelled from the spec: `read_thunks(base_rva)` — the lazy
`ImportThunkList` (hadesmem pelib, outside the sampled sources) yields raw
thunk values until a zero sentinel, and yields zero elements when the base
RVA is unmappable. -/
def thunkList (env : PeEnv) (rva : Nat) : List Nat :=
  if env.rvaValid rva then (env.mem rva).takeWhile (fun v => v != 0) else []

/-- Models `thunk.ByOrdinal()`: the `IMAGE_ORDINAL_FLAG` bit of the raw value
(bit 63 for PE32+, bit 31 for PE32). -/
def byOrdinal (isPe64 : Bool) (v : Nat) : Bool :=
  v.testBit (if isPe64 then 63 else 31)

/-- How `DumpImportThunk` renders one thunk: as a bound function address, an
ordinal, or a by-name (`AddressOfData`) reference. -/
inductive ThunkRender
  | bound (function : Nat)
  | ordinal (raw : Nat)
  | byName (addressOfData : Nat)
  deriving DecidableEq, Repr

/-- The rendering branch `DumpImportThunk` takes: `is_bound` is checked
first (it pre-empts `ByOrdinal`), then the ordinal bit, else by-name. -/
def renderThunk (env : PeEnv) (raw : Nat) (isBound : Bool) : ThunkRender :=
  if isBound then .bound raw
  else if byOrdinal env.isPe64 raw then .ordinal raw
  else .byName raw

/-- Models `DumpImportThunk thunk is_bound`: the render plus the warnings it
emits (only the by-name branch can warn, with `kUnsupported`, when the name
data read throws). -/
def dumpImportThunk (env : PeEnv) (raw : Nat) (isBound : Bool) :
    ThunkRender × List Warn :=
  if isBound then (.bound raw, [])
  else if byOrdinal env.isPe64 raw then (.ordinal raw, [])
  else (.byName raw, if env.thunkNameOk raw then [] else [.invalidThunkNameData])

/-- The structural (ILT-or-IAT) thunk loop of `DumpImports` (lines 253-275):
`if (count++ == 1000) { warn kUnsupported; break; }
DumpImportThunk(thunk, false);`. Returns the renders, the warnings, and the
final value of `count`. -/
def iltWalkAux (env : PeEnv) : List Nat → Nat → List ThunkRender × List Warn × Nat
  | [], count => ([], [], count)
  | t :: rest, count =>
    if count = 1000 then ([], [.thunkCeiling], count + 1)
    else
      ((dumpImportThunk env t false).1 :: (iltWalkAux env rest (count + 1)).1,
       (dumpImportThunk env t false).2 ++ (iltWalkAux env rest (count + 1)).2.1,
       (iltWalkAux env rest (count + 1)).2.2)

/-- The separate IAT reporting loop of `DumpImports` (lines 288-311):
`if (ilt_valid && !count--) { warn kSuspicious; break; }
DumpImportThunk(thunk, isBound2);` — note `count` only decrements when
`ilt_valid` holds (short-circuit `&&`), and this loop has no 1000 ceiling of
its own. -/
def iatWalkAux (env : PeEnv) (iltValid : Bool) (isBound2 : Bool) :
    List Nat → Nat → List ThunkRender × List Warn
  | [], _ => ([], [])
  | t :: rest, count =>
    if iltValid = true ∧ count = 0 then ([], [.iatIltSizeMismatch])
    else
      ((dumpImportThunk env t isBound2).1 ::
        (iatWalkAux env iltValid isBound2 rest
          (if iltValid then count - 1 else count)).1,
       (dumpImportThunk env t isBound2).2 ++
        (iatWalkAux env iltValid isBound2 rest
          (if iltValid then count - 1 else count)).2)

/-- Models `use_ilt = !!ilt && ilt != iat` (line 129). -/
def useIlt (dir : ImportDescriptor) : Bool :=
  dir.originalFirstThunk != 0 && dir.originalFirstThunk != dir.firstThunk

/-- Models `is_ilt_bound = (is_bound && !use_ilt) || is_memory_bound` where
`is_memory_bound = (type == Image) && !use_ilt` (lines 245-250). Computed by
the code and then discarded (`(void)is_ilt_bound`). -/
def isIltBound (env : PeEnv) (dir : ImportDescriptor) : Bool :=
  (dir.timeDateStamp != 0 && !useIlt dir) || (env.isImage && !useIlt dir)

/-- Models `is_iat_bound = is_bound || (type == Image)` (lines 251-252). -/
def isIatBound (env : PeEnv) (dir : ImportDescriptor) : Bool :=
  dir.timeDateStamp != 0 || env.isImage

/-- Per-descriptor output: whether the ILT was the structural source, the
renders of the structural walk, and the renders of the separate IAT pass. -/
structure DescReport where
  usedIlt : Bool
  iltRenders : List ThunkRender
  iatRenders : List ThunkRender
  deriving DecidableEq, Repr

/-- The per-descriptor body of `DumpImports` (lines 163-312), reached only
for descriptors that were neither TLS-AOI terminated, nor skipped for an
empty/invalid IAT, nor cut by the descriptor ceiling. Warning order follows
the source: new-style-bound check, forwarder-chain check, module-name read,
ILT-empty warning, structural walk, separate IAT pass. -/
def processDescriptor (env : PeEnv) (dir : ImportDescriptor) :
    DescReport × List Warn :=
  let iat := dir.firstThunk
  let ilt := dir.originalFirstThunk
  let ui := useIlt dir
  let iltThunks := thunkList env (if ui then ilt else iat)
  let iltEmpty := iltThunks.isEmpty
  let iltValid := env.rvaValid ilt
  let wBound :=
    if dir.timeDateStamp = dwordMax ∧ iltValid = false ∧
        env.hasValidNonEmptyBoundImportDescList = true then
      [Warn.newStyleBoundInvalidIlt]
    else []
  let wFwd :=
    if dir.forwarderChain ≠ 0 ∧ dir.forwarderChain ≠ dwordMax then
      [Warn.oldStyleForwarderChain]
    else []
  let wName := if dir.nameOk then [] else [Warn.nameReadFailed]
  let wIltEmpty := if iltEmpty then [Warn.iltEmptyOrInvalid] else []
  let iltWalk := iltWalkAux env iltThunks 0
  let iatWalk :=
    if ui = true ∧ iat ≠ 0 then
      iatWalkAux env iltValid ((isIatBound env dir && iltValid) || !iltEmpty)
        (thunkList env iat) iltWalk.2.2
    else ([], [])
  (⟨ui, iltWalk.1, iatWalk.1⟩,
   wBound ++ wFwd ++ wName ++ wIltEmpty ++ iltWalk.2.1 ++ iatWalk.2)

/-- The descriptor loop of `DumpImports` (lines 113-313) with the running
`num_import_dirs` counter: TLS-AOI break, empty-IAT skip (`continue`, counter
untouched), `num_import_dirs++ == 1000` ceiling break, else process. -/
def dumpImportsLoop (env : PeEnv) :
    List ImportDescriptor → Nat → List DescReport × List Warn
  | [], _ => ([], [])
  | dir :: rest, n =>
    if dir.tlsAoiTerminated then ([], [.tlsAoiTrick])
    else if (thunkList env dir.firstThunk).isEmpty then
      ((dumpImportsLoop env rest n).1,
       .iatEmptyOrInvalid :: (dumpImportsLoop env rest n).2)
    else if n = 1000 then ([], [.descriptorCeiling])
    else
      ((processDescriptor env dir).1 :: (dumpImportsLoop env rest (n + 1)).1,
       (processDescriptor env dir).2 ++ (dumpImportsLoop env rest (n + 1)).2)

/-- Models `DumpImports`: the empty-directory warning (lines 103-111)
followed by the descriptor loop starting with `num_import_dirs = 0`. -/
def dumpImports (env : PeEnv) (dirs : List ImportDescriptor) :
    List DescReport × List Warn :=
  ((dumpImportsLoop env dirs 0).1,
   (if dirs.isEmpty then [Warn.emptyImportDir] else []) ++
     (dumpImportsLoop env dirs 0).2)

/-- A concrete file-mapped environment: RVA 100 is the only mappable address
and holds a single by-name thunk with raw value 5; no bound-import directory
is present. Based on the `dllmaxvals.dll` shape described in the source's
comments. -/
def exEnvA : PeEnv :=
  { rvaValid := fun r => r == 100
    mem := fun r => if r == 100 then [5] else []
    isImage := false
    hasValidNonEmptyBoundImportDescList := false
    thunkNameOk := fun _ => true
    isPe64 := false }

/-- A variant of `exEnvA` in which a valid non-empty bound-import directory
is present. -/
def exEnvA' : PeEnv :=
  { exEnvA with hasValidNonEmptyBoundImportDescList := true }

/-- A descriptor with `TimeDateStamp = 0xFFFFFFFF`, no ILT, and its IAT at
RVA 100 (new-style bound, absent ILT). -/
def exDirNewBound : ImportDescriptor :=
  { originalFirstThunk := 0
    timeDateStamp := dwordMax
    forwarderChain := 0
    firstThunk := 100
    tlsAoiTerminated := false
    nameOk := true }

/-- A legacy-bound descriptor (`TimeDateStamp = 1`) with no ILT and its IAT
at RVA 100, so `use_ilt` is false. -/
def exDirOldBound : ImportDescriptor :=
  { originalFirstThunk := 0
    timeDateStamp := 1
    forwarderChain := 0
    firstThunk := 100
    tlsAoiTerminated := false
    nameOk := true }

/-- A concrete environment where RVA 200 maps to a three-entry thunk table
and RVA 50 is unmappable. -/
def exEnvB : PeEnv :=
  { rvaValid := fun r => r == 200
    mem := fun r => if r == 200 then [7, 8, 9] else []
    isImage := false
    hasValidNonEmptyBoundImportDescList := false
    thunkNameOk := fun _ => true
    isPe64 := false }

/-- A descriptor whose ILT RVA (50) does not resolve while its IAT RVA (200)
does, so `use_ilt` is true but `ilt_valid` is false. -/
def exDirBadIlt : ImportDescriptor :=
  { originalFirstThunk := 50
    timeDateStamp := 0
    forwarderChain := 0
    firstThunk := 200
    tlsAoiTerminated := false
    nameOk := true }

/-- A concrete environment whose IAT at RVA 200 holds 1001 nonzero thunks
with no zero sentinel, while RVA 50 (the ILT) is unmappable. -/
def exEnvC : PeEnv :=
  { rvaValid := fun r => r == 200
    mem := fun r => if r == 200 then List.replicate 1001 1 else []
    isImage := false
    hasValidNonEmptyBoundImportDescList := false
    thunkNameOk := fun _ => true
    isPe64 := false }

/-- An environment for witnesses: RVA 300 maps to a two-entry ILT and RVA
100 to a one-entry IAT; RVA 400 maps to a three-entry table. -/
def exEnvD : PeEnv :=
  { rvaValid := fun r => r == 100 || r == 300 || r == 400
    mem := fun r =>
      if r == 100 then [5]
      else if r == 300 then [6, 7]
      else if r == 400 then [11, 12, 13] else []
    isImage := false
    hasValidNonEmptyBoundImportDescList := false
    thunkNameOk := fun _ => true
    isPe64 := false }

/-- A descriptor using a valid two-entry ILT (RVA 300) with a three-entry
IAT (RVA 400). -/
def exDirMismatch : ImportDescriptor :=
  { originalFirstThunk := 300
    timeDateStamp := 0
    forwarderChain := 0
    firstThunk := 400
    tlsAoiTerminated := false
    nameOk := true }

/-- A descriptor with equal non-zero ILT and IAT RVAs (both 400). -/
def exDirEqualRvas : ImportDescriptor :=
  { originalFirstThunk := 400
    timeDateStamp := 0
    forwarderChain := 0
    firstThunk := 400
    tlsAoiTerminated := false
    nameOk := true }

/-- A descriptor whose IAT RVA (999) is unmappable in `exEnvD`, so its IAT
thunk sequence is empty and the dump loop skips it. -/
def exDirEmptyIat : ImportDescriptor :=
  { originalFirstThunk := 0
    timeDateStamp := 0
    forwarderChain := 0
    firstThunk := 999
    tlsAoiTerminated := false
    nameOk := false }

/-- A variant of `exEnvA` in which by-name thunk data is never readable. -/
def exEnvE : PeEnv :=
  { exEnvA with thunkNameOk := fun _ => false }

/-- A descriptor flagged as TLS-AOI terminated. -/
def exDirTls : ImportDescriptor :=
  { originalFirstThunk := 0
    timeDateStamp := 0
    forwarderChain := 0
    firstThunk := 100
    tlsAoiTerminated := true
    nameOk := true }

/-- A well-formed unbound descriptor over the one-entry IAT at RVA 100 whose
module name read fails. -/
def exDirBadName : ImportDescriptor :=
  { originalFirstThunk := 0
    timeDateStamp := 0
    forwarderChain := 0
    firstThunk := 100
    tlsAoiTerminated := false
    nameOk := false }

theorem dumpImportThunk_fst (env : PeEnv) (raw : Nat) (b : Bool) :
    (dumpImportThunk env raw b).1 = renderThunk env raw b := by
  unfold dumpImportThunk renderThunk
  split
  · rfl
  · split <;> rfl

theorem dumpImportThunk_snd (env : PeEnv) (raw : Nat) (b : Bool) :
    (dumpImportThunk env raw b).2 =
      if b = false ∧ byOrdinal env.isPe64 raw = false ∧ env.thunkNameOk raw = false
      then [Warn.invalidThunkNameData] else [] := by
  unfold dumpImportThunk
  by_cases hb : b <;> by_cases ho : byOrdinal env.isPe64 raw <;>
    by_cases hn : env.thunkNameOk raw <;> simp [hb, ho, hn]

theorem dumpImportThunk_warn_mem (env : PeEnv) (raw : Nat) (b : Bool) :
    ∀ w ∈ (dumpImportThunk env raw b).2, w = Warn.invalidThunkNameData := by
  intro w hw
  rw [dumpImportThunk_snd] at hw
  split at hw <;> simp_all

theorem iltWalkAux_renders (env : PeEnv) (l : List Nat) :
    ∀ c, c ≤ 1000 →
      (iltWalkAux env l c).1 =
        (l.take (1000 - c)).map (fun v => renderThunk env v false) := by
  induction l with
  | nil => intro c _; simp [iltWalkAux]
  | cons t rest ih =>
    intro c hc
    by_cases h : c = 1000
    · subst h; simp [iltWalkAux]
    · have h1000 : 1000 - c = (1000 - (c + 1)) + 1 := by omega
      simp only [iltWalkAux, if_neg h]
      rw [h1000, List.take_succ_cons, List.map_cons,
        dumpImportThunk_fst, ih (c + 1) (by omega)]

theorem iltWalkAux_count (env : PeEnv) (l : List Nat) :
    ∀ c, c ≤ 1000 → (iltWalkAux env l c).2.2 = min (c + l.length) 1001 := by
  induction l with
  | nil => intro c hc; simp [iltWalkAux]; omega
  | cons t rest ih =>
    intro c hc
    by_cases h : c = 1000
    · subst h; simp [iltWalkAux]; omega
    · simp only [iltWalkAux, if_neg h]
      rw [ih (c + 1) (by omega)]
      simp only [List.length_cons]
      omega

theorem iltWalkAux_warn_mem (env : PeEnv) (l : List Nat) :
    ∀ c, ∀ w ∈ (iltWalkAux env l c).2.1,
      w = Warn.thunkCeiling ∨ w = Warn.invalidThunkNameData := by
  induction l with
  | nil => intro c w hw; simp [iltWalkAux] at hw
  | cons t rest ih =>
    intro c w hw
    by_cases h : c = 1000
    · subst h; simp [iltWalkAux] at hw; simp [hw]
    · simp only [iltWalkAux, if_neg h, List.mem_append] at hw
      rcases hw with hw | hw
      · exact Or.inr (dumpImportThunk_warn_mem env t false w hw)
      · exact ih (c + 1) w hw

theorem iltWalkAux_ceiling_count (env : PeEnv) (l : List Nat) :
    ∀ c, c ≤ 1000 →
      ((iltWalkAux env l c).2.1).count Warn.thunkCeiling =
        if l.length ≤ 1000 - c then 0 else 1 := by
  induction l with
  | nil => intro c hc; simp [iltWalkAux]
  | cons t rest ih =>
    intro c hc
    by_cases h : c = 1000
    · subst h; simp [iltWalkAux]
    · simp only [iltWalkAux, if_neg h, List.count_append]
      have hz : ((dumpImportThunk env t false).2).count Warn.thunkCeiling = 0 := by
        rw [List.count_eq_zero]
        intro hmem
        have := dumpImportThunk_warn_mem env t false _ hmem
        simp at this
      rw [hz, ih (c + 1) (by omega)]
      simp only [List.length_cons]
      by_cases hlen : rest.length ≤ 1000 - (c + 1)
      · rw [if_pos hlen, if_pos (by omega)]
      · rw [if_neg hlen, if_neg (by omega)]

theorem iltWalkAux_warn_count_eq_zero (env : PeEnv) (l : List Nat) (c : Nat)
    (w : Warn) (h1 : w ≠ Warn.thunkCeiling) (h2 : w ≠ Warn.invalidThunkNameData) :
    ((iltWalkAux env l c).2.1).count w = 0 := by
  rw [List.count_eq_zero]
  intro hmem
  rcases iltWalkAux_warn_mem env l c w hmem with h | h <;> simp_all

theorem dumpImportThunk_warn_count_eq_zero (env : PeEnv) (raw : Nat) (b : Bool)
    (w : Warn) (h : w ≠ Warn.invalidThunkNameData) :
    ((dumpImportThunk env raw b).2).count w = 0 := by
  rw [List.count_eq_zero]
  intro hmem
  exact h (dumpImportThunk_warn_mem env raw b w hmem)

theorem iatWalkAux_warn_mem (env : PeEnv) (iv b : Bool) (l : List Nat) :
    ∀ c, ∀ w ∈ (iatWalkAux env iv b l c).2,
      w = Warn.iatIltSizeMismatch ∨ w = Warn.invalidThunkNameData := by
  induction l with
  | nil => intro c w hw; simp [iatWalkAux] at hw
  | cons t rest ih =>
    intro c w hw
    by_cases h : iv = true ∧ c = 0
    · simp only [iatWalkAux, if_pos h] at hw
      simp at hw; simp [hw]
    · simp only [iatWalkAux, if_neg h, List.mem_append] at hw
      rcases hw with hw | hw
      · exact Or.inr (dumpImportThunk_warn_mem env t b w hw)
      · exact ih _ w hw

theorem iatWalkAux_warn_count_eq_zero (env : PeEnv) (iv b : Bool) (l : List Nat)
    (c : Nat) (w : Warn) (h1 : w ≠ Warn.iatIltSizeMismatch)
    (h2 : w ≠ Warn.invalidThunkNameData) :
    ((iatWalkAux env iv b l c).2).count w = 0 := by
  rw [List.count_eq_zero]
  intro hmem
  rcases iatWalkAux_warn_mem env iv b l c w hmem with h | h <;> simp_all

theorem iatWalkAux_invalid_renders (env : PeEnv) (b : Bool) (l : List Nat) :
    ∀ c, (iatWalkAux env false b l c).1 = l.map (fun v => renderThunk env v b) := by
  induction l with
  | nil => intro c; simp [iatWalkAux]
  | cons t rest ih =>
    intro c
    simp only [iatWalkAux, List.map_cons]
    rw [if_neg (by simp), dumpImportThunk_fst]
    simp only [if_neg (Bool.false_ne_true)]
    rw [ih c]

theorem iatWalkAux_invalid_no_mismatch (env : PeEnv) (b : Bool) (l : List Nat) :
    ∀ c, ((iatWalkAux env false b l c).2).count Warn.iatIltSizeMismatch = 0 := by
  induction l with
  | nil => intro c; simp [iatWalkAux]
  | cons t rest ih =>
    intro c
    simp only [iatWalkAux]
    rw [if_neg (by simp)]
    simp only [if_neg (Bool.false_ne_true), List.count_append]
    rw [dumpImportThunk_warn_count_eq_zero env t b _ (by simp), ih c]

theorem iatWalkAux_valid_renders_length (env : PeEnv) (b : Bool) (l : List Nat) :
    ∀ c, (iatWalkAux env true b l c).1.length = min c l.length := by
  induction l with
  | nil => intro c; simp [iatWalkAux]
  | cons t rest ih =>
    intro c
    by_cases h : c = 0
    · subst h; simp [iatWalkAux]
    · simp only [iatWalkAux]
      rw [if_neg (by simp [h])]
      simp only [if_true, List.length_cons]
      rw [ih (c - 1)]
      omega

theorem iatWalkAux_valid_mismatch_count (env : PeEnv) (b : Bool) (l : List Nat) :
    ∀ c, ((iatWalkAux env true b l c).2).count Warn.iatIltSizeMismatch =
      if l.length ≤ c then 0 else 1 := by
  induction l with
  | nil => intro c; simp [iatWalkAux]
  | cons t rest ih =>
    intro c
    by_cases h : c = 0
    · subst h; simp [iatWalkAux]
    · simp only [iatWalkAux]
      rw [if_neg (by simp [h])]
      simp only [if_true, List.count_append]
      rw [dumpImportThunk_warn_count_eq_zero env t b _ (by simp), ih (c - 1)]
      simp only [List.length_cons, Nat.zero_add]
      by_cases hlen : rest.length ≤ c - 1
      · rw [if_pos hlen, if_pos (by omega)]
      · rw [if_neg hlen, if_neg (by omega)]

theorem thunkList_invalid (env : PeEnv) (rva : Nat)
    (h : env.rvaValid rva = false) : thunkList env rva = [] := by
  simp [thunkList, h]

theorem processDescriptor_usedIlt (env : PeEnv) (dir : ImportDescriptor) :
    (processDescriptor env dir).1.usedIlt = useIlt dir := rfl

theorem processDescriptor_iltRenders (env : PeEnv) (dir : ImportDescriptor) :
    (processDescriptor env dir).1.iltRenders =
      (iltWalkAux env
        (thunkList env
          (if useIlt dir then dir.originalFirstThunk else dir.firstThunk)) 0).1 := rfl

theorem processDescriptor_iatRenders (env : PeEnv) (dir : ImportDescriptor) :
    (processDescriptor env dir).1.iatRenders =
      (if useIlt dir = true ∧ dir.firstThunk ≠ 0 then
        iatWalkAux env (env.rvaValid dir.originalFirstThunk)
          ((isIatBound env dir && env.rvaValid dir.originalFirstThunk) ||
            !(thunkList env
              (if useIlt dir then dir.originalFirstThunk else dir.firstThunk)).isEmpty)
          (thunkList env dir.firstThunk)
          (iltWalkAux env
            (thunkList env
              (if useIlt dir then dir.originalFirstThunk else dir.firstThunk)) 0).2.2
       else ([], [])).1 := rfl

theorem processDescriptor_count (env : PeEnv) (dir : ImportDescriptor) (w : Warn) :
    ((processDescriptor env dir).2).count w =
      ((if dir.timeDateStamp = dwordMax ∧
            env.rvaValid dir.originalFirstThunk = false ∧
            env.hasValidNonEmptyBoundImportDescList = true then
          [Warn.newStyleBoundInvalidIlt] else []).count w +
        (if dir.forwarderChain ≠ 0 ∧ dir.forwarderChain ≠ dwordMax then
          [Warn.oldStyleForwarderChain] else []).count w +
        (if dir.nameOk then [] else [Warn.nameReadFailed]).count w +
        (if (thunkList env
              (if useIlt dir then dir.originalFirstThunk else dir.firstThunk)).isEmpty
          then [Warn.iltEmptyOrInvalid] else []).count w +
        ((iltWalkAux env
            (thunkList env
              (if useIlt dir then dir.originalFirstThunk else dir.firstThunk)) 0).2.1).count w +
        ((if useIlt dir = true ∧ dir.firstThunk ≠ 0 then
            iatWalkAux env (env.rvaValid dir.originalFirstThunk)
              ((isIatBound env dir && env.rvaValid dir.originalFirstThunk) ||
                !(thunkList env
                  (if useIlt dir then dir.originalFirstThunk else dir.firstThunk)).isEmpty)
              (thunkList env dir.firstThunk)
              (iltWalkAux env
                (thunkList env
                  (if useIlt dir then dir.originalFirstThunk else dir.firstThunk)) 0).2.2
          else ([], [])).2).count w) := by
  simp only [processDescriptor, List.count_append]

theorem processDescriptor_warn_mem (env : PeEnv) (dir : ImportDescriptor) :
    ∀ w ∈ (processDescriptor env dir).2,
      w = Warn.newStyleBoundInvalidIlt ∨ w = Warn.oldStyleForwarderChain ∨
      w = Warn.nameReadFailed ∨ w = Warn.iltEmptyOrInvalid ∨
      w = Warn.thunkCeiling ∨ w = Warn.invalidThunkNameData ∨
      w = Warn.iatIltSizeMismatch := by
  intro w hw
  simp only [processDescriptor, List.mem_append] at hw
  rcases hw with ((((hw | hw) | hw) | hw) | hw) | hw
  · split at hw
    · simp at hw; simp [hw]
    · simp at hw
  · split at hw
    · simp at hw; simp [hw]
    · simp at hw
  · split at hw
    · simp at hw
    · simp at hw; simp [hw]
  · have hwe : w = Warn.iltEmptyOrInvalid := by
      by_cases hcond : (thunkList env
          (if useIlt dir then dir.originalFirstThunk else dir.firstThunk)).isEmpty
      · rw [if_pos hcond] at hw; simpa using hw
      · rw [if_neg hcond] at hw; simp at hw
    simp [hwe]
  · rcases iltWalkAux_warn_mem env _ 0 w hw with h | h <;> simp [h]
  · split at hw
    · rcases iatWalkAux_warn_mem env _ _ _ _ w hw with h | h <;> simp [h]
    · simp at hw

theorem processDescriptor_no_tls (env : PeEnv) (dir : ImportDescriptor) :
    ((processDescriptor env dir).2).count Warn.tlsAoiTrick = 0 := by
  rw [List.count_eq_zero]
  intro hmem
  rcases processDescriptor_warn_mem env dir _ hmem with
    h | h | h | h | h | h | h <;> simp_all

theorem processDescriptor_no_descriptorCeiling (env : PeEnv)
    (dir : ImportDescriptor) :
    ((processDescriptor env dir).2).count Warn.descriptorCeiling = 0 := by
  rw [List.count_eq_zero]
  intro hmem
  rcases processDescriptor_warn_mem env dir _ hmem with
    h | h | h | h | h | h | h <;> simp_all

theorem dumpImportsLoop_tls (env : PeEnv) (dir : ImportDescriptor)
    (rest : List ImportDescriptor) (n : Nat)
    (h : dir.tlsAoiTerminated = true) :
    dumpImportsLoop env (dir :: rest) n = ([], [Warn.tlsAoiTrick]) := by
  simp [dumpImportsLoop, h]

theorem dumpImportsLoop_skip (env : PeEnv) (dir : ImportDescriptor)
    (rest : List ImportDescriptor) (n : Nat)
    (htls : dir.tlsAoiTerminated = false)
    (hempty : thunkList env dir.firstThunk = []) :
    dumpImportsLoop env (dir :: rest) n =
      ((dumpImportsLoop env rest n).1,
       Warn.iatEmptyOrInvalid :: (dumpImportsLoop env rest n).2) := by
  simp [dumpImportsLoop, htls, hempty]

theorem dumpImportsLoop_process (env : PeEnv) (dir : ImportDescriptor)
    (rest : List ImportDescriptor) (n : Nat)
    (htls : dir.tlsAoiTerminated = false)
    (hne : thunkList env dir.firstThunk ≠ [])
    (hn : n ≠ 1000) :
    dumpImportsLoop env (dir :: rest) n =
      ((processDescriptor env dir).1 :: (dumpImportsLoop env rest (n + 1)).1,
       (processDescriptor env dir).2 ++ (dumpImportsLoop env rest (n + 1)).2) := by
  simp [dumpImportsLoop, htls, hne, hn]

theorem dumpImportsLoop_tls_ceiling_count (env : PeEnv)
    (ds : List ImportDescriptor) :
    ∀ n, ((dumpImportsLoop env ds n).2).count Warn.tlsAoiTrick +
      ((dumpImportsLoop env ds n).2).count Warn.descriptorCeiling ≤ 1 := by
  induction ds with
  | nil => intro n; simp [dumpImportsLoop]
  | cons dir rest ih =>
    intro n
    by_cases htls : dir.tlsAoiTerminated
    · simp [dumpImportsLoop_tls env dir rest n htls]
    · simp only [Bool.not_eq_true] at htls
      by_cases hempty : thunkList env dir.firstThunk = []
      · rw [dumpImportsLoop_skip env dir rest n htls hempty]
        simpa [List.count_cons] using ih n
      · by_cases hn : n = 1000
        · subst hn
          simp [dumpImportsLoop, htls, hempty]
        · rw [dumpImportsLoop_process env dir rest n htls hempty hn]
          simp only [List.count_append, processDescriptor_no_tls,
            processDescriptor_no_descriptorCeiling]
          simpa using ih (n + 1)

theorem dumpImportsLoop_length_le (env : PeEnv) (ds : List ImportDescriptor) :
    ∀ n, n ≤ 1000 → (dumpImportsLoop env ds n).1.length ≤ 1000 - n := by
  induction ds with
  | nil => intro n _; simp [dumpImportsLoop]
  | cons dir rest ih =>
    intro n hn
    by_cases htls : dir.tlsAoiTerminated
    · simp [dumpImportsLoop_tls env dir rest n htls]
    · simp only [Bool.not_eq_true] at htls
      by_cases hempty : thunkList env dir.firstThunk = []
      · rw [dumpImportsLoop_skip env dir rest n htls hempty]
        exact ih n hn
      · by_cases hceil : n = 1000
        · subst hceil
          simp [dumpImportsLoop, htls, hempty]
        · rw [dumpImportsLoop_process env dir rest n htls hempty hceil]
          have := ih (n + 1) (by omega)
          simp only [List.length_cons]
          omega

theorem count_ite_singleton_self {P : Prop} [Decidable P] (a : Warn) :
    (if P then [a] else ([] : List Warn)).count a = if P then 1 else 0 := by
  split <;> simp

theorem count_ite_singleton_ne {P : Prop} [Decidable P] {a w : Warn}
    (h : w ≠ a) : (if P then [a] else ([] : List Warn)).count w = 0 := by
  split <;> simp [List.count_singleton, Ne.symm h]

theorem count_ite_nil_singleton_self {P : Prop} [Decidable P] (a : Warn) :
    (if P then ([] : List Warn) else [a]).count a = if P then 0 else 1 := by
  split <;> simp

theorem count_ite_nil_singleton_ne {P : Prop} [Decidable P] {a w : Warn}
    (h : w ≠ a) : (if P then ([] : List Warn) else [a]).count w = 0 := by
  split <;> simp [List.count_singleton, Ne.symm h]

theorem iatComponent_count_eq_zero {P : Prop} [Decidable P] (env : PeEnv)
    (iv b : Bool) (l : List Nat) (c : Nat) (w : Warn)
    (h1 : w ≠ Warn.iatIltSizeMismatch) (h2 : w ≠ Warn.invalidThunkNameData) :
    ((if P then iatWalkAux env iv b l c else (([], []) :
        List ThunkRender × List Warn)).2).count w = 0 := by
  split
  · exact iatWalkAux_warn_count_eq_zero env iv b l c w h1 h2
  · simp

theorem processDescriptor_newStyle_count (env : PeEnv) (dir : ImportDescriptor) :
    ((processDescriptor env dir).2).count Warn.newStyleBoundInvalidIlt =
      if dir.timeDateStamp = dwordMax ∧
          env.rvaValid dir.originalFirstThunk = false ∧
          env.hasValidNonEmptyBoundImportDescList = true then 1 else 0 := by
  rw [processDescriptor_count]
  rw [count_ite_singleton_self, count_ite_singleton_ne (by simp),
    count_ite_nil_singleton_ne (by simp), count_ite_singleton_ne (by simp),
    iltWalkAux_warn_count_eq_zero env _ 0 _ (by simp) (by simp),
    iatComponent_count_eq_zero env _ _ _ _ _ (by simp) (by simp)]
  omega

theorem processDescriptor_nameReadFailed_count (env : PeEnv)
    (dir : ImportDescriptor) :
    ((processDescriptor env dir).2).count Warn.nameReadFailed =
      if dir.nameOk = true then 0 else 1 := by
  rw [processDescriptor_count]
  rw [count_ite_singleton_ne (by simp), count_ite_singleton_ne (by simp),
    count_ite_nil_singleton_self, count_ite_singleton_ne (by simp),
    iltWalkAux_warn_count_eq_zero env _ 0 _ (by simp) (by simp),
    iatComponent_count_eq_zero env _ _ _ _ _ (by simp) (by simp)]
  omega

theorem processDescriptor_mismatch_count (env : PeEnv) (dir : ImportDescriptor) :
    ((processDescriptor env dir).2).count Warn.iatIltSizeMismatch =
      ((if useIlt dir = true ∧ dir.firstThunk ≠ 0 then
          iatWalkAux env (env.rvaValid dir.originalFirstThunk)
            ((isIatBound env dir && env.rvaValid dir.originalFirstThunk) ||
              !(thunkList env
                (if useIlt dir then dir.originalFirstThunk else dir.firstThunk)).isEmpty)
            (thunkList env dir.firstThunk)
            (iltWalkAux env
              (thunkList env
                (if useIlt dir then dir.originalFirstThunk else dir.firstThunk)) 0).2.2
        else ([], [])).2).count Warn.iatIltSizeMismatch := by
  rw [processDescriptor_count]
  rw [count_ite_singleton_ne (by simp), count_ite_singleton_ne (by simp),
    count_ite_nil_singleton_ne (by simp), count_ite_singleton_ne (by simp),
    iltWalkAux_warn_count_eq_zero env _ 0 _ (by simp) (by simp)]
  omega

/-- C4: for every thunk table whose walked sequence ends (zero sentinel or
end of mappable memory) after N ≤ 1000 entries, the structural thunk walk
yields exactly N entries and records no resource-guard warning; for every
thunk table whose sequence continues past 1000 entries with no sentinel, the
walk yields exactly 1000 entries and records exactly one Unsupported
resource-guard warning. -/
theorem thunk_walk_sentinel_vs_ceiling (env : PeEnv) (rva : Nat) (N : Nat)
    (hN : (thunkList env rva).length = N) :
    (N ≤ 1000 →
      (iltWalkAux env (thunkList env rva) 0).1.length = N ∧
      ((iltWalkAux env (thunkList env rva) 0).2.1).count Warn.thunkCeiling = 0) ∧
    (1000 < N →
      (iltWalkAux env (thunkList env rva) 0).1.length = 1000 ∧
      ((iltWalkAux env (thunkList env rva) 0).2.1).count Warn.thunkCeiling = 1 ∧
      Warn.severity Warn.thunkCeiling = Severity.unsupported) := by
  constructor
  · intro h
    refine ⟨?_, ?_⟩
    · rw [iltWalkAux_renders env (thunkList env rva) 0 (by omega)]
      simp only [List.length_map, List.length_take, hN]
      omega
    · rw [iltWalkAux_ceiling_count env (thunkList env rva) 0 (by omega), hN]
      simp only [Nat.sub_zero]
      rw [if_pos h]
  · intro h
    refine ⟨?_, ?_, rfl⟩
    · rw [iltWalkAux_renders env (thunkList env rva) 0 (by omega)]
      simp only [List.length_map, List.length_take, hN]
      omega
    · rw [iltWalkAux_ceiling_count env (thunkList env rva) 0 (by omega), hN]
      simp only [Nat.sub_zero]
      rw [if_neg (by omega)]

/-- Witness for C4: the three-entry sentinel-terminated table at RVA 400 of
`exEnvD` walks to exactly 3 entries with no resource-guard warning. -/
theorem thunk_walk_sentinel_vs_ceiling_witness :
    (thunkList exEnvD 400).length = 3 ∧ 3 ≤ 1000 ∧
    (iltWalkAux exEnvD (thunkList exEnvD 400) 0).1.length = 3 ∧
    ((iltWalkAux exEnvD (thunkList exEnvD 400) 0).2.1).count
      Warn.thunkCeiling = 0 := by
  have h := (thunk_walk_sentinel_vs_ceiling exEnvD 400 3 (by decide)).1
    (by omega)
  exact ⟨by decide, by omega, h.1, h.2⟩

/-- C5: a descriptor whose IAT resolves to an empty thunk sequence is
skipped entirely (`continue`, not termination): its whole contribution to
the run is exactly one Suspicious warning, no report is produced for it, no
name resolution happens for it, and processing continues with the remaining
descriptors. -/
theorem empty_iat_descriptor_skipped (env : PeEnv) (dir : ImportDescriptor)
    (rest : List ImportDescriptor) (n : Nat)
    (htls : dir.tlsAoiTerminated = false)
    (hempty : thunkList env dir.firstThunk = []) :
    dumpImportsLoop env (dir :: rest) n =
      ((dumpImportsLoop env rest n).1,
       Warn.iatEmptyOrInvalid :: (dumpImportsLoop env rest n).2) ∧
    Warn.severity Warn.iatEmptyOrInvalid = Severity.suspicious :=
  ⟨dumpImportsLoop_skip env dir rest n htls hempty, rfl⟩

/-- Witness for C5: the unmappable-IAT descriptor `exDirEmptyIat` (whose
module name read would also fail) contributes exactly one Suspicious
warning and no report. -/
theorem empty_iat_descriptor_skipped_witness :
    exDirEmptyIat.tlsAoiTerminated = false ∧
    thunkList exEnvD exDirEmptyIat.firstThunk = [] ∧
    exDirEmptyIat.nameOk = false ∧
    dumpImportsLoop exEnvD [exDirEmptyIat] 0 = ([], [Warn.iatEmptyOrInvalid]) := by
  have h := empty_iat_descriptor_skipped exEnvD exDirEmptyIat [] 0
    (by decide) (by decide)
  refine ⟨by decide, by decide, by decide, ?_⟩
  rw [h.1]
  simp [dumpImportsLoop]

/-- C8 counterpart of the claim as stated: `use_ilt` is literally
`original_first_thunk_rva != 0 && original_first_thunk_rva != first_thunk_rva`,
and when the two RVAs are equal and non-zero, `use_ilt` is false, the IAT is
the structural walk source, and no separate IAT reporting pass runs. -/
theorem equal_rvas_use_iat_only (env : PeEnv) (dir : ImportDescriptor) :
    useIlt dir = (dir.originalFirstThunk != 0 &&
      dir.originalFirstThunk != dir.firstThunk) ∧
    (dir.originalFirstThunk ≠ 0 → dir.originalFirstThunk = dir.firstThunk →
      useIlt dir = false ∧
      (processDescriptor env dir).1.usedIlt = false ∧
      (processDescriptor env dir).1.iltRenders =
        ((thunkList env dir.firstThunk).take 1000).map
          (fun v => renderThunk env v false) ∧
      (processDescriptor env dir).1.iatRenders = []) := by
  refine ⟨rfl, fun h1 h2 => ?_⟩
  have hui : useIlt dir = false := by simp [useIlt, h2]
  refine ⟨hui, by rw [processDescriptor_usedIlt, hui], ?_, ?_⟩
  · rw [processDescriptor_iltRenders]
    rw [show (if useIlt dir then dir.originalFirstThunk else dir.firstThunk) =
      dir.firstThunk by simp [hui]]
    have := iltWalkAux_renders env (thunkList env dir.firstThunk) 0 (by omega)
    simpa using this
  · rw [processDescriptor_iatRenders, if_neg (by simp [hui])]

/-- Witness for C8: the equal-RVA descriptor `exDirEqualRvas` walks the IAT
at RVA 400 structurally and produces no separate IAT pass. -/
theorem equal_rvas_use_iat_only_witness :
    exDirEqualRvas.originalFirstThunk ≠ 0 ∧
    exDirEqualRvas.originalFirstThunk = exDirEqualRvas.firstThunk ∧
    useIlt exDirEqualRvas = false ∧
    (processDescriptor exEnvD exDirEqualRvas).1.iatRenders = [] ∧
    (processDescriptor exEnvD exDirEqualRvas).1.iltRenders =
      [ThunkRender.byName 11, ThunkRender.byName 12, ThunkRender.byName 13] := by
  have h := (equal_rvas_use_iat_only exEnvD exDirEqualRvas).2
    (by decide) (by decide)
  exact ⟨by decide, by decide, h.1, h.2.2.2, by decide⟩

/-- C2 counterexample: for the legacy-bound descriptor `exDirOldBound`
(`TimeDateStamp = 1`, `use_ilt` false) the claim's formula gives
`is_ilt_bound = true`, yet the walked thunk is rendered by-name, not as a
bound function address — the code hardcodes `is_bound = false` in the
structural walk. -/
theorem ilt_bound_classification_counterexample :
    isIltBound exEnvA exDirOldBound = true ∧
    exDirOldBound.timeDateStamp ≠ 0 ∧
    useIlt exDirOldBound = false ∧
    (processDescriptor exEnvA exDirOldBound).1.iltRenders =
      [ThunkRender.byName 5] ∧
    (processDescriptor exEnvA exDirOldBound).1.iltRenders ≠
      [ThunkRender.bound 5] := by
  decide

/-- C2 amended: `is_ilt_bound` is computed exactly as
`(bound && !use_ilt) || (image-mapped && !use_ilt)` but then discarded; every
thunk of the structural walk is classified with `is_bound` hardcoded to
false, so it renders as an ordinal or by-name reference, never as a bound
function address. -/
theorem ilt_walk_hardcodes_unbound (env : PeEnv) (dir : ImportDescriptor) :
    isIltBound env dir = ((dir.timeDateStamp != 0 && !useIlt dir) ||
      (env.isImage && !useIlt dir)) ∧
    (processDescriptor env dir).1.iltRenders =
      ((thunkList env
        (if useIlt dir then dir.originalFirstThunk else dir.firstThunk)).take
          1000).map (fun v => renderThunk env v false) := by
  refine ⟨rfl, ?_⟩
  rw [processDescriptor_iltRenders]
  have := iltWalkAux_renders env
    (thunkList env (if useIlt dir then dir.originalFirstThunk else dir.firstThunk))
    0 (by omega)
  simpa using this

/-- Lemma: the thunk walk over an all-ones table of length n never meets a
zero sentinel. -/
theorem takeWhile_replicate_one (n : Nat) :
    (List.replicate n (1 : Nat)).takeWhile (fun v => v != 0) =
      List.replicate n 1 := by
  induction n with
  | zero => rfl
  | succ k ih => simp [List.replicate_succ, List.takeWhile_cons, ih]

/-- C1 counterexample: `exDirNewBound` has `TimeDateStamp = 0xFFFFFFFF`, an
unresolvable ILT RVA, a non-empty IAT, and no bound-import directory is
present — the claim demands exactly one Unsupported new-style-bound warning
here, but the engine records none (the source warns only when a valid
non-empty bound-import directory IS present). -/
theorem new_style_bound_warning_counterexample :
    exDirNewBound.timeDateStamp = dwordMax ∧
    exEnvA.rvaValid exDirNewBound.originalFirstThunk = false ∧
    exEnvA.hasValidNonEmptyBoundImportDescList = false ∧
    thunkList exEnvA exDirNewBound.firstThunk ≠ [] ∧
    ((dumpImports exEnvA [exDirNewBound]).2).count
      Warn.newStyleBoundInvalidIlt = 0 := by
  decide

/-- C1 amended: for a descriptor with `time_date_stamp = 0xFFFFFFFF` and an
unresolvable ILT RVA, the engine records exactly one Unsupported
new-style-bound warning when a valid non-empty bound-import directory IS
present and none when it is absent; with an absent ILT (`RVA 0`) thunk
classification proceeds using the IAT as the structural source. -/
theorem new_style_bound_warning_iff_bound_dir_present (env : PeEnv)
    (dir : ImportDescriptor)
    (hts : dir.timeDateStamp = dwordMax)
    (hilt : env.rvaValid dir.originalFirstThunk = false) :
    ((processDescriptor env dir).2).count Warn.newStyleBoundInvalidIlt =
      (if env.hasValidNonEmptyBoundImportDescList = true then 1 else 0) ∧
    (dir.originalFirstThunk = 0 →
      (processDescriptor env dir).1.usedIlt = false ∧
      (processDescriptor env dir).1.iltRenders =
        ((thunkList env dir.firstThunk).take 1000).map
          (fun v => renderThunk env v false)) := by
  constructor
  · rw [processDescriptor_newStyle_count]
    by_cases hb : env.hasValidNonEmptyBoundImportDescList = true
    · rw [if_pos ⟨hts, hilt, hb⟩, if_pos hb]
    · rw [if_neg (by tauto), if_neg hb]
  · intro h0
    have hui : useIlt dir = false := by simp [useIlt, h0]
    refine ⟨by rw [processDescriptor_usedIlt, hui], ?_⟩
    rw [processDescriptor_iltRenders,
      show (if useIlt dir then dir.originalFirstThunk else dir.firstThunk) =
        dir.firstThunk by simp [hui]]
    simpa using iltWalkAux_renders env (thunkList env dir.firstThunk) 0 (by omega)

/-- Witness for C1 amended: with the bound-import directory present
(`exEnvA'`) exactly one warning is recorded, and with it absent (`exEnvA`)
none is. -/
theorem new_style_bound_warning_iff_bound_dir_present_witness :
    exDirNewBound.timeDateStamp = dwordMax ∧
    exEnvA'.rvaValid exDirNewBound.originalFirstThunk = false ∧
    exEnvA'.hasValidNonEmptyBoundImportDescList = true ∧
    ((processDescriptor exEnvA' exDirNewBound).2).count
      Warn.newStyleBoundInvalidIlt = 1 ∧
    ((processDescriptor exEnvA exDirNewBound).2).count
      Warn.newStyleBoundInvalidIlt = 0 := by
  have h1 := (new_style_bound_warning_iff_bound_dir_present exEnvA'
    exDirNewBound (by decide) (by decide)).1
  have h2 := (new_style_bound_warning_iff_bound_dir_present exEnvA
    exDirNewBound (by decide) (by decide)).1
  refine ⟨by decide, by decide, by decide, ?_, ?_⟩
  · rw [h1]; decide
  · rw [h2]; decide

/-- C3 counterexample: `exDirBadIlt` uses the ILT (`use_ilt` true, IAT RVA
non-zero) but its ILT RVA does not resolve, so the ILT walk produces 0
entries while the IAT holds 3 — the claim demands the IAT walk stop at 0
entries with exactly one Suspicious size-mismatch warning, but the engine
enumerates all 3 IAT entries and records no mismatch warning. -/
theorem iat_mismatch_cut_counterexample :
    useIlt exDirBadIlt = true ∧
    exDirBadIlt.firstThunk ≠ 0 ∧
    exEnvB.rvaValid exDirBadIlt.originalFirstThunk = false ∧
    (processDescriptor exEnvB exDirBadIlt).1.iltRenders.length = 0 ∧
    (thunkList exEnvB exDirBadIlt.firstThunk).length = 3 ∧
    (processDescriptor exEnvB exDirBadIlt).1.iatRenders.length = 3 ∧
    ((processDescriptor exEnvB exDirBadIlt).2).count
      Warn.iatIltSizeMismatch = 0 := by
  decide

/-- C3 amended: for a descriptor using the ILT with a non-zero IAT RVA, when
the ILT RVA resolves and the ILT walk produced N ≤ 1000 entries and the IAT
holds more, the IAT walk stops after exactly N entries with exactly one
Suspicious size-mismatch warning; when the ILT RVA does not resolve, the IAT
is enumerated in full and no size-mismatch warning is recorded. -/
theorem iat_mismatch_cut_requires_valid_ilt (env : PeEnv)
    (dir : ImportDescriptor) (hui : useIlt dir = true)
    (hiat : dir.firstThunk ≠ 0) :
    (env.rvaValid dir.originalFirstThunk = true →
      (thunkList env dir.originalFirstThunk).length ≤ 1000 →
      (thunkList env dir.originalFirstThunk).length <
        (thunkList env dir.firstThunk).length →
      (processDescriptor env dir).1.iatRenders.length =
        (thunkList env dir.originalFirstThunk).length ∧
      ((processDescriptor env dir).2).count Warn.iatIltSizeMismatch = 1 ∧
      Warn.severity Warn.iatIltSizeMismatch = Severity.suspicious) ∧
    (env.rvaValid dir.originalFirstThunk = false →
      (processDescriptor env dir).1.iatRenders.length =
        (thunkList env dir.firstThunk).length ∧
      ((processDescriptor env dir).2).count Warn.iatIltSizeMismatch = 0) := by
  have hsrc : (if useIlt dir then dir.originalFirstThunk else dir.firstThunk) =
      dir.originalFirstThunk := by simp [hui]
  constructor
  · intro hv hle hlt
    have hcnt : (iltWalkAux env (thunkList env
        (if useIlt dir then dir.originalFirstThunk else dir.firstThunk)) 0).2.2 =
        (thunkList env dir.originalFirstThunk).length := by
      rw [hsrc, iltWalkAux_count env _ 0 (by omega)]
      omega
    refine ⟨?_, ?_, rfl⟩
    · rw [processDescriptor_iatRenders, if_pos ⟨hui, hiat⟩, hv, hcnt,
        iatWalkAux_valid_renders_length]
      omega
    · rw [processDescriptor_mismatch_count, if_pos ⟨hui, hiat⟩, hv, hcnt,
        iatWalkAux_valid_mismatch_count]
      rw [if_neg (by omega)]
  · intro hv
    refine ⟨?_, ?_⟩
    · rw [processDescriptor_iatRenders, if_pos ⟨hui, hiat⟩, hv,
        iatWalkAux_invalid_renders]
      simp
    · rw [processDescriptor_mismatch_count, if_pos ⟨hui, hiat⟩, hv,
        iatWalkAux_invalid_no_mismatch]

/-- Witness for C3 amended: a valid two-entry ILT against a three-entry IAT
stops the IAT walk at 2 entries with exactly one size-mismatch warning. -/
theorem iat_mismatch_cut_requires_valid_ilt_witness :
    useIlt exDirMismatch = true ∧
    exDirMismatch.firstThunk ≠ 0 ∧
    exEnvD.rvaValid exDirMismatch.originalFirstThunk = true ∧
    (thunkList exEnvD exDirMismatch.originalFirstThunk).length = 2 ∧
    (thunkList exEnvD exDirMismatch.firstThunk).length = 3 ∧
    (processDescriptor exEnvD exDirMismatch).1.iatRenders.length = 2 ∧
    ((processDescriptor exEnvD exDirMismatch).2).count
      Warn.iatIltSizeMismatch = 1 := by
  have h := (iat_mismatch_cut_requires_valid_ilt exEnvD exDirMismatch
    (by decide) (by decide)).1 (by decide) (by decide) (by decide)
  refine ⟨by decide, by decide, by decide, by decide, by decide, ?_, h.2.1⟩
  rw [h.1]
  decide

/-- C6: a TLS-AOI-terminated descriptor stops descriptor enumeration on the
spot with exactly one Suspicious virtual-terminator warning (nothing after
it is processed), and in any one table the virtual-terminator warning and
the 1000-descriptor ceiling warning are mutually exclusive and each occurs
at most once. -/
theorem tls_virtual_terminator_truncates :
    (∀ (env : PeEnv) (dir : ImportDescriptor)
        (rest : List ImportDescriptor) (n : Nat),
      dir.tlsAoiTerminated = true →
      dumpImportsLoop env (dir :: rest) n = ([], [Warn.tlsAoiTrick])) ∧
    (∀ (env : PeEnv) (ds : List ImportDescriptor) (n : Nat),
      ((dumpImportsLoop env ds n).2).count Warn.tlsAoiTrick +
        ((dumpImportsLoop env ds n).2).count Warn.descriptorCeiling ≤ 1) ∧
    Warn.severity Warn.tlsAoiTrick = Severity.suspicious :=
  ⟨fun env dir rest n h => dumpImportsLoop_tls env dir rest n h,
   fun env ds n => dumpImportsLoop_tls_ceiling_count env ds n, rfl⟩

/-- Witness for C6: a table whose first descriptor is TLS-AOI terminated
yields only the virtual-terminator warning and no descriptor-ceiling
warning, with the following descriptor never processed. -/
theorem tls_virtual_terminator_truncates_witness :
    exDirTls.tlsAoiTerminated = true ∧
    dumpImportsLoop exEnvD [exDirTls, exDirEqualRvas] 0 =
      ([], [Warn.tlsAoiTrick]) ∧
    ((dumpImportsLoop exEnvD [exDirTls, exDirEqualRvas] 0).2).count
      Warn.descriptorCeiling = 0 := by
  have h1 := tls_virtual_terminator_truncates.1 exEnvD exDirTls
    [exDirEqualRvas] 0 (by decide)
  refine ⟨by decide, h1, ?_⟩
  rw [h1]
  decide

/-- C7 counterexample: for `exDirBadIlt` over `exEnvC` (ILT RVA unmappable,
IAT a 1001-entry sentinel-free table) the separate IAT walk enumerates all
1001 entries — more than the 1000-entry ceiling the claim asserts for every
table iteration. -/
theorem iat_walk_unbounded_counterexample :
    useIlt exDirBadIlt = true ∧
    exEnvC.rvaValid exDirBadIlt.originalFirstThunk = false ∧
    (processDescriptor exEnvC exDirBadIlt).1.iatRenders.length = 1001 := by
  refine ⟨by decide, by decide, ?_⟩
  rw [processDescriptor_iatRenders, if_pos ⟨by decide, by decide⟩,
    show exEnvC.rvaValid exDirBadIlt.originalFirstThunk = false from by decide,
    iatWalkAux_invalid_renders, List.length_map]
  show (thunkList exEnvC 200).length = 1001
  have h1 : thunkList exEnvC 200 =
      (List.replicate 1001 1).takeWhile (fun v => v != 0) := rfl
  rw [h1, takeWhile_replicate_one, List.length_replicate]

/-- C7 amended: the descriptor loop and the structural thunk walk are
ceiling-bounded (at most 1000 entries each), and the separate IAT walk is
bounded by the ILT counter (at most 1001 entries) when the ILT RVA resolves;
but when the ILT RVA does not resolve, the IAT walk enumerates the entire
IAT thunk sequence, with no fixed ceiling. -/
theorem iteration_ceilings_except_invalid_ilt_iat :
    (∀ (env : PeEnv) (dir : ImportDescriptor),
      (processDescriptor env dir).1.iltRenders.length ≤ 1000) ∧
    (∀ (env : PeEnv) (ds : List ImportDescriptor) (n : Nat), n ≤ 1000 →
      (dumpImportsLoop env ds n).1.length ≤ 1000 - n) ∧
    (∀ (env : PeEnv) (dir : ImportDescriptor),
      env.rvaValid dir.originalFirstThunk = true →
      (processDescriptor env dir).1.iatRenders.length ≤ 1001) ∧
    (∀ (env : PeEnv) (dir : ImportDescriptor),
      env.rvaValid dir.originalFirstThunk = false → useIlt dir = true →
      dir.firstThunk ≠ 0 →
      (processDescriptor env dir).1.iatRenders.length =
        (thunkList env dir.firstThunk).length) := by
  refine ⟨?_, ?_, ?_, ?_⟩
  · intro env dir
    rw [processDescriptor_iltRenders,
      iltWalkAux_renders env _ 0 (by omega)]
    simp only [List.length_map, List.length_take]
    omega
  · intro env ds n hn
    exact dumpImportsLoop_length_le env ds n hn
  · intro env dir hv
    rw [processDescriptor_iatRenders]
    by_cases hc : useIlt dir = true ∧ dir.firstThunk ≠ 0
    · rw [if_pos hc, hv, iatWalkAux_valid_renders_length]
      have := iltWalkAux_count env
        (thunkList env
          (if useIlt dir then dir.originalFirstThunk else dir.firstThunk)) 0
        (by omega)
      omega
    · rw [if_neg hc]
      simp
  · intro env dir hv hui hiat
    rw [processDescriptor_iatRenders, if_pos ⟨hui, hiat⟩, hv,
      iatWalkAux_invalid_renders]
    simp

/-- Witness for C7 amended: the ceilings hold concretely for the valid-ILT
descriptor `exDirMismatch`, and the sentinel-free 1001-entry IAT of `exEnvC`
is enumerated in full when the ILT RVA does not resolve. -/
theorem iteration_ceilings_except_invalid_ilt_iat_witness :
    (processDescriptor exEnvD exDirMismatch).1.iltRenders.length ≤ 1000 ∧
    exEnvD.rvaValid exDirMismatch.originalFirstThunk = true ∧
    (processDescriptor exEnvD exDirMismatch).1.iatRenders.length ≤ 1001 ∧
    0 ≤ 1000 ∧ (dumpImportsLoop exEnvD [exDirMismatch] 0).1.length ≤ 1000 := by
  refine ⟨iteration_ceilings_except_invalid_ilt_iat.1 exEnvD exDirMismatch,
    by decide, ?_, by omega, ?_⟩
  · exact iteration_ceilings_except_invalid_ilt_iat.2.2.1 exEnvD exDirMismatch
      (by decide)
  · have h := iteration_ceilings_except_invalid_ilt_iat.2.1 exEnvD
      [exDirMismatch] 0 (by omega)
    simpa using h

/-- Lemma: a run of descriptors that are all skipped for an empty/invalid
IAT contributes one Suspicious warning each, leaves the `num_import_dirs`
counter untouched, and passes control to the remaining descriptors. -/
theorem dumpImportsLoop_skipped_prepend (env : PeEnv) :
    ∀ (skipped : List ImportDescriptor),
      (∀ dir ∈ skipped, dir.tlsAoiTerminated = false ∧
        thunkList env dir.firstThunk = []) →
      ∀ (rest : List ImportDescriptor) (n : Nat),
        dumpImportsLoop env (skipped ++ rest) n =
          ((dumpImportsLoop env rest n).1,
           List.replicate skipped.length Warn.iatEmptyOrInvalid ++
             (dumpImportsLoop env rest n).2) := by
  intro skipped
  induction skipped with
  | nil => intro _ rest n; simp
  | cons d ds ih =>
    intro h rest n
    have hd := h d (List.mem_cons_self d ds)
    rw [List.cons_append,
      dumpImportsLoop_skip env d (ds ++ rest) n hd.1 hd.2,
      ih (fun dir hm => h dir (List.mem_cons_of_mem d hm)) rest n]
    simp [List.replicate_succ]

/-- C9: the 1000-descriptor ceiling counter advances only for descriptors
that were not skipped for an empty/invalid IAT: a run of skipped descriptors
of any length contributes only its per-descriptor Suspicious warnings,
leaves the counter value for the rest unchanged, and on its own can never
produce the descriptor resource-guard warning. -/
theorem skipped_descriptors_free_of_ceiling (env : PeEnv)
    (skipped rest : List ImportDescriptor) (n : Nat)
    (h : ∀ dir ∈ skipped, dir.tlsAoiTerminated = false ∧
      thunkList env dir.firstThunk = []) :
    dumpImportsLoop env (skipped ++ rest) n =
      ((dumpImportsLoop env rest n).1,
       List.replicate skipped.length Warn.iatEmptyOrInvalid ++
         (dumpImportsLoop env rest n).2) ∧
    ((dumpImportsLoop env skipped n).2).count Warn.descriptorCeiling = 0 := by
  refine ⟨dumpImportsLoop_skipped_prepend env skipped h rest n, ?_⟩
  have h2 := dumpImportsLoop_skipped_prepend env skipped h [] n
  rw [List.append_nil] at h2
  rw [h2]
  simp [dumpImportsLoop, List.count_replicate]

/-- Witness for C9: two skipped descriptors followed by a processed one
contribute two Suspicious warnings, do not advance the counter, and alone
trigger no descriptor-ceiling warning. -/
theorem skipped_descriptors_free_of_ceiling_witness :
    (∀ dir ∈ [exDirEmptyIat, exDirEmptyIat], dir.tlsAoiTerminated = false ∧
      thunkList exEnvD dir.firstThunk = []) ∧
    dumpImportsLoop exEnvD
        ([exDirEmptyIat, exDirEmptyIat] ++ [exDirEqualRvas]) 0 =
      ((dumpImportsLoop exEnvD [exDirEqualRvas] 0).1,
       List.replicate 2 Warn.iatEmptyOrInvalid ++
         (dumpImportsLoop exEnvD [exDirEqualRvas] 0).2) ∧
    ((dumpImportsLoop exEnvD [exDirEmptyIat, exDirEmptyIat] 0).2).count
      Warn.descriptorCeiling = 0 := by
  have h := skipped_descriptors_free_of_ceiling exEnvD
    [exDirEmptyIat, exDirEmptyIat] [exDirEqualRvas] 0 (by decide)
  exact ⟨by decide, h.1, h.2⟩

/-- C10: name-read failures are absorbed at the record boundary with
asymmetric severities — a failing by-name thunk read yields exactly one
Unsupported warning and the thunk walk continues (the renders do not depend
on name readability), while a failing module-name read yields exactly one
Suspicious warning and the descriptor's report is unchanged. -/
theorem name_failures_absorbed_asymmetric :
    (∀ (env : PeEnv) (raw : Nat), byOrdinal env.isPe64 raw = false →
      env.thunkNameOk raw = false →
      (dumpImportThunk env raw false).2 = [Warn.invalidThunkNameData] ∧
      Warn.severity Warn.invalidThunkNameData = Severity.unsupported) ∧
    (∀ (env : PeEnv) (l : List Nat),
      (iltWalkAux env l 0).1 =
        (l.take 1000).map (fun v => renderThunk env v false)) ∧
    (∀ (env : PeEnv) (dir : ImportDescriptor), dir.nameOk = false →
      ((processDescriptor env dir).2).count Warn.nameReadFailed = 1 ∧
      Warn.severity Warn.nameReadFailed = Severity.suspicious ∧
      (processDescriptor env dir).1 =
        (processDescriptor env { dir with nameOk := true }).1) := by
  refine ⟨?_, ?_, ?_⟩
  · intro env raw ho hn
    refine ⟨?_, rfl⟩
    rw [dumpImportThunk_snd, if_pos ⟨rfl, ho, hn⟩]
  · intro env l
    simpa using iltWalkAux_renders env l 0 (by omega)
  · intro env dir h
    refine ⟨?_, rfl, rfl⟩
    rw [processDescriptor_nameReadFailed_count, if_neg (by simp [h])]

/-- Witness for C10: a failed by-name thunk read over `exEnvE` yields the
single Unsupported warning, and the bad-name descriptor `exDirBadName`
yields exactly one Suspicious module-name warning. -/
theorem name_failures_absorbed_asymmetric_witness :
    byOrdinal exEnvE.isPe64 5 = false ∧ exEnvE.thunkNameOk 5 = false ∧
    (dumpImportThunk exEnvE 5 false).2 = [Warn.invalidThunkNameData] ∧
    exDirBadName.nameOk = false ∧
    ((processDescriptor exEnvA exDirBadName).2).count Warn.nameReadFailed = 1 := by
  have h1 := name_failures_absorbed_asymmetric.1 exEnvE 5 (by decide) (by decide)
  have h3 := name_failures_absorbed_asymmetric.2.2 exEnvA exDirBadName (by decide)
  exact ⟨by decide, by decide, h1.1, by decide, h3.1⟩

end HadesmemDump
